import Mathlib

/-!
# neuraldeep command-line front end (`src/index.js`)

A shallow embedding of the five command actions registered in `src/index.js`
(`init`, `create`, `run`, `test`, `compare`) and of the top-level script that
parses the arguments and reports a missing command.

The functions `index.js` imports from `./utils/utils` and `./commandsLogic/*`
are parameters of the model (`Env`): every call is recorded in a trace
together with its arguments, and its result (a returned value or a thrown
error) is supplied by the environment. An action calls each imported function
at most once, so an environment that fixes the result of every call also
covers functions that read or change the file system.

`process.exit` ends the run at once, a thrown error propagates until a
`catch` block, and `print.error` only records its message.
-/

namespace NeuralDeep

/-! ## JavaScript values -/

/-- JavaScript values that cross the boundary of `index.js`: command-line
tokens are strings, a missing optional argument or flag is `undefined`, the
variadic `[architecture...]` argument is an array of tokens, and the imported
functions may return anything (numbers are restricted to integers and `NaN`,
every other object is `obj`). -/
inductive JsVal where
  | undefined
  | null
  | bool (b : Bool)
  | num (n : Int)
  | nan
  | str (s : String)
  | arr (xs : List String)
  | obj
  deriving DecidableEq

/-- JavaScript `ToBoolean`: the values `undefined`, `null`, `false`, `0`, `NaN`
and the empty string are falsy, everything else is truthy. -/
def JsVal.truthy : JsVal → Bool
  | .undefined => false
  | .null => false
  | .bool b => b
  | .num n => n != 0
  | .nan => false
  | .str s => s != ""
  | .arr _ => true
  | .obj => true

/-- A thrown `Error` object, with its `message` property. -/
structure JsError where
  message : String
  deriving DecidableEq

/-! ## The imported functions -/

/-- The functions `index.js` imports (lines 3 to 9). -/
inductive Fn where
  | validateInputArray
  | validateBaseName
  | validateName
  | validateParams
  | validateProject
  | compareNeuralNetworkCommand
  | createProjectStructure
  | runNeuralNetworkCommand
  | testNeuralNetworkCommand
  | trainAndCreateNeuralNetwortCommand
  deriving DecidableEq

/-- What a call of an imported function does: it returns a value or throws. -/
inductive CallResult where
  | ret (v : JsVal)
  | throw (e : JsError)
  deriving DecidableEq

/-- The imported functions, as a parameter: the result of each function on each
argument list. -/
abbrev Env := Fn → List JsVal → CallResult

/-! ## Effects -/

/-- Observable events of a run, in the order they happen. -/
inductive Event where
  | call (f : Fn) (args : List JsVal)
  | error (msg : String)
  deriving DecidableEq

/-- Program state: the module-level `command` flag (line 14) and the events so
far. -/
structure St where
  command : Bool
  trace : List Event
  deriving DecidableEq

/-- How a computation ends: it runs to its end, the process is terminated by
`process.exit(code)`, or an exception propagates. -/
inductive Res (α : Type) where
  | ok (a : α) (s : St)
  | exit (code : Nat) (s : St)
  | throw (e : JsError) (s : St)
  deriving DecidableEq

/-- Final state of a computation. -/
def Res.state {α : Type} : Res α → St
  | .ok _ s => s
  | .exit _ s => s
  | .throw _ s => s

/-- Exit code passed to `process.exit`, if it was called. -/
def Res.exitCode {α : Type} : Res α → Option Nat
  | .exit c _ => some c
  | _ => none

/-- Computations of the script. -/
def Cli (α : Type) : Type := St → Res α

/-- Sequencing: the rest runs only when the first part ran to its end. -/
def Cli.bind {α β : Type} (m : Cli α) (k : α → Cli β) : Cli β := fun s =>
  match m s with
  | .ok a s1 => k a s1
  | .exit c s1 => .exit c s1
  | .throw e s1 => .throw e s1

instance : Monad Cli where
  pure a := fun s => .ok a s
  bind := Cli.bind

/-- Assignment `command = true`. -/
def setCommand (b : Bool) : Cli Unit := fun s => .ok () { s with command := b }

/-- Read of the `command` flag. -/
def getCommand : Cli Bool := fun s => .ok s.command s

/-- Call of `print.error(msg)`. -/
def printError (msg : String) : Cli Unit := fun s =>
  .ok () { s with trace := s.trace ++ [Event.error msg] }

/-- Call of `process.exit(code)`: nothing after it runs. -/
def processExit (code : Nat) : Cli Unit := fun s => .exit code s

/-- Call of an imported function: the call is recorded, then the function
returns or throws as the environment says. -/
def call (env : Env) (f : Fn) (args : List JsVal) : Cli JsVal := fun s =>
  let s1 : St := { s with trace := s.trace ++ [Event.call f args] }
  match env f args with
  | .ret v => .ok v s1
  | .throw e => .throw e s1

/-- The statement `if (cond) { print.error(msg); process.exit(code); }`, the
shape of every check in the actions. -/
def exitIf (cond : Bool) (msg : String) (code : Nat) : Cli Unit :=
  if cond then do
    printError msg
    processExit code
  else pure ()

/-- A `try { body } catch (error) { handler error }` block. -/
def tryCatch (body : Cli Unit) (handler : JsError → Cli Unit) : Cli Unit := fun s =>
  match body s with
  | .throw e s1 => handler e s1
  | r => r

/-- The `option` object handed to an action: a flag that was not given is
`undefined`. -/
structure CmdOptions where
  verbose : JsVal
  extensive : JsVal
  top : JsVal
  deriving DecidableEq

/-! ## The command actions -/

/-- Action of `init [name]` (lines 23 to 38). -/
def initAction (env : Env) (name : JsVal) (option : CmdOptions) : Cli Unit := do
  setCommand true
  exitIf (!(← call env .validateParams [name]).truthy)
    "ERROR: Missing parameters" 2
  exitIf (!(← call env .validateBaseName [name]).truthy)
    "ERROR: Name invalid. The project name must have the camelCase syntax" 3
  tryCatch
    (do let _ ← call env .createProjectStructure [name, option.verbose])
    (fun error => printError ("ERROR: " ++ error.message))

/-- Action of `create [name] [architecture...]` (lines 44 to 66). -/
def createAction (env : Env) (name : JsVal) (architecture : List String)
    (option : CmdOptions) : Cli Unit := do
  setCommand true
  exitIf (!(← call env .validateProject []).truthy)
    "ERROR: Go to the root of the project" 1
  exitIf (!(← call env .validateParams [name, .arr architecture]).truthy)
    "ERROR: Missing parameters" 2
  exitIf (!(← call env .validateName [name]).truthy)
    "ERROR: Name invalid. The name must have the following syntax: nameCase_versionCamelCase or only nameCamelCase" 3
  exitIf (architecture.length < 3)
    "ERROR: Architecture invalid. The architecture must have three or more layers" 3
  exitIf (!(← call env .trainAndCreateNeuralNetwortCommand
      [name, .arr architecture, option.verbose]).truthy)
    "ERROR: Make sure you have the training data file in its respective folder" 4

/-- Action of `run [name] [input]` (lines 72 to 94). -/
def runAction (env : Env) (name input : JsVal) (option : CmdOptions) : Cli Unit := do
  setCommand true
  exitIf (!(← call env .validateProject []).truthy)
    "ERROR: Go to the root of the project" 1
  exitIf (!(← call env .validateParams [name, input]).truthy)
    "ERROR: Missing parameters" 2
  exitIf (!(← call env .validateName [name]).truthy)
    "ERROR: Name invalid. The name must have the following syntax: nameCase_versionCamelCase or only nameCamelCase" 3
  exitIf (!(← call env .validateInputArray [input]).truthy)
    "ERROR: Input invalid. The input must be a binary array" 3
  exitIf (!(← call env .runNeuralNetworkCommand [name, input, option.verbose]).truthy)
    "ERROR: Make sure you have run the create command" 4

/-- Action of `test [name]` (lines 101 to 119). -/
def testAction (env : Env) (name : JsVal) (option : CmdOptions) : Cli Unit := do
  setCommand true
  exitIf (!(← call env .validateProject []).truthy)
    "ERROR: Go to the root of the project" 1
  exitIf (!(← call env .validateParams [name]).truthy)
    "ERROR: Missing parameters" 2
  exitIf (!(← call env .validateName [name]).truthy)
    "ERROR: Name invalid. The name must have the following syntax: nameCase_versionCamelCase or only nameCamelCase" 3
  exitIf (!(← call env .testNeuralNetworkCommand
      [name, option.extensive, option.verbose]).truthy)
    "ERROR: Make sure you have run the create command or have the test data file in your respective folder" 4

/-- Action of `compare [baseName]` (lines 126 to 144). -/
def compareAction (env : Env) (baseName : JsVal) (option : CmdOptions) : Cli Unit := do
  setCommand true
  exitIf (!(← call env .validateProject []).truthy)
    "ERROR: Go to the root of the project" 1
  exitIf (!(← call env .validateParams [baseName]).truthy)
    "ERROR: Missing parameters" 2
  exitIf (!(← call env .validateBaseName [baseName]).truthy)
    "ERROR: Base name invalid. The name must have camelCase syntax" 3
  exitIf (!(← call env .compareNeuralNetworkCommand
      [baseName, option.top, option.verbose]).truthy)
    "ERROR: Make sure you have two or more neural networks or have the test data file in your respective folder" 4

/-- State in which the script starts: `let command = false` (line 14), nothing
printed or called yet. -/
def St.init : St := { command := false, trace := [] }

/-! ## The top-level script -/

/-- One dispatch of the argument parser to a registered action, with the
arguments it hands over. -/
inductive Invocation where
  | init (name : JsVal) (option : CmdOptions)
  | create (name : JsVal) (architecture : List String) (option : CmdOptions)
  | run (name input : JsVal) (option : CmdOptions)
  | test (name : JsVal) (option : CmdOptions)
  | compare (baseName : JsVal) (option : CmdOptions)
  deriving DecidableEq

/-- The registered action an invocation runs. -/
def Invocation.action (env : Env) : Invocation → Cli Unit
  | .init name option => initAction env name option
  | .create name architecture option => createAction env name architecture option
  | .run name input option => runAction env name input option
  | .test name option => testAction env name option
  | .compare baseName option => compareAction env baseName option

/-- What the parsing library does with the arguments. It is not part of the
repository, so its decision is a parameter: it dispatches to registered
actions, with the arguments it hands over, and returns (to none when no
command matched), or it ends the process itself without running an action,
as for `--help`, for `-V` (the version option registered on line 17) and for
an unknown option. -/
inductive ParseRun where
  | dispatches (actions : List Invocation)
  | ends (code : Nat)
  deriving DecidableEq

/-- The dispatched actions, run one after the other. -/
def runActions (env : Env) : List Invocation → Cli Unit
  | [] => pure ()
  | i :: rest => do
    i.action env
    runActions env rest

/-- The call `program.parse(process.argv)` (line 146). -/
def parse (env : Env) : ParseRun → Cli Unit
  | .dispatches actions => runActions env actions
  | .ends code => processExit code

/-- The whole script (lines 14 to 150): the flag starts false, the arguments
are parsed, and a missing command is reported. -/
def main (env : Env) (run : ParseRun) : Res Unit :=
  (do
    parse env run
    if !(← getCommand) then
      printError "ERROR: No command given") St.init

/-! ## Verdicts of the checks -/

/-- Outcome of a check made through an imported function. -/
inductive Verdict where
  | pass
  | fail
  | raise (e : JsError)
  deriving DecidableEq

/-- Verdict of calling `f` on `args`: a truthy result passes, a falsy result
fails, a thrown error is raised. -/
def verdict (env : Env) (f : Fn) (args : List JsVal) : Verdict :=
  match env f args with
  | .ret v => if v.truthy then .pass else .fail
  | .throw e => .raise e

/-- The calls of imported functions recorded in a trace, in order. -/
def calls (trace : List Event) : List (Fn × List JsVal) :=
  trace.filterMap fun
    | .call f args => some (f, args)
    | .error _ => none

/-- The messages printed through `print.error` recorded in a trace, in order. -/
def errors (trace : List Event) : List String :=
  trace.filterMap fun
    | .call _ _ => none
    | .error msg => some msg

/-! ## The ordering rule of the checks -/

/-- One check of a command as the ordering rule lists it: the imported call it
makes (none for the inline architecture-length test), its verdict, and the
exit code and message used when it fails. -/
structure Check where
  probe : Option (Fn × List JsVal)
  verdict : Verdict
  code : Nat
  message : String
  deriving DecidableEq

/-- The first failing check in the listed order; none when every check passes
or a check throws before any fails. -/
def firstFailing : List Check → Option Check
  | [] => none
  | c :: rest =>
    match c.verdict with
    | .pass => firstFailing rest
    | .fail => some c
    | .raise _ => none

/-- Checks the ordering rule lets run: every check up to and including the
first one that does not pass. -/
def evaluatedChecks : List Check → List Check
  | [] => []
  | c :: rest =>
    match c.verdict with
    | .pass => c :: evaluatedChecks rest
    | _ => [c]

/-- Verdict of the inline test `architecture.length < 3` of `create`. -/
def lengthVerdict (architecture : List String) : Verdict :=
  if architecture.length < 3 then .fail else .pass

/-- Ordered checks of `create`: project root (1), parameters (2), name syntax
(3), architecture length (3), command logic (4). -/
def createChecks (env : Env) (name : JsVal) (architecture : List String)
    (option : CmdOptions) : List Check :=
  [ ⟨some (.validateProject, []), verdict env .validateProject [], 1,
      "ERROR: Go to the root of the project"⟩,
    ⟨some (.validateParams, [name, .arr architecture]),
      verdict env .validateParams [name, .arr architecture], 2,
      "ERROR: Missing parameters"⟩,
    ⟨some (.validateName, [name]), verdict env .validateName [name], 3,
      "ERROR: Name invalid. The name must have the following syntax: nameCase_versionCamelCase or only nameCamelCase"⟩,
    ⟨none, lengthVerdict architecture, 3,
      "ERROR: Architecture invalid. The architecture must have three or more layers"⟩,
    ⟨some (.trainAndCreateNeuralNetwortCommand, [name, .arr architecture, option.verbose]),
      verdict env .trainAndCreateNeuralNetwortCommand
        [name, .arr architecture, option.verbose], 4,
      "ERROR: Make sure you have the training data file in its respective folder"⟩ ]

/-- Ordered checks of `run`: project root (1), parameters (2), name syntax (3),
binary input array (3), command logic (4). -/
def runChecks (env : Env) (name input : JsVal) (option : CmdOptions) : List Check :=
  [ ⟨some (.validateProject, []), verdict env .validateProject [], 1,
      "ERROR: Go to the root of the project"⟩,
    ⟨some (.validateParams, [name, input]), verdict env .validateParams [name, input], 2,
      "ERROR: Missing parameters"⟩,
    ⟨some (.validateName, [name]), verdict env .validateName [name], 3,
      "ERROR: Name invalid. The name must have the following syntax: nameCase_versionCamelCase or only nameCamelCase"⟩,
    ⟨some (.validateInputArray, [input]), verdict env .validateInputArray [input], 3,
      "ERROR: Input invalid. The input must be a binary array"⟩,
    ⟨some (.runNeuralNetworkCommand, [name, input, option.verbose]),
      verdict env .runNeuralNetworkCommand [name, input, option.verbose], 4,
      "ERROR: Make sure you have run the create command"⟩ ]

/-- Ordered checks of `test`: project root (1), parameters (2), name syntax
(3), command logic (4). -/
def testChecks (env : Env) (name : JsVal) (option : CmdOptions) : List Check :=
  [ ⟨some (.validateProject, []), verdict env .validateProject [], 1,
      "ERROR: Go to the root of the project"⟩,
    ⟨some (.validateParams, [name]), verdict env .validateParams [name], 2,
      "ERROR: Missing parameters"⟩,
    ⟨some (.validateName, [name]), verdict env .validateName [name], 3,
      "ERROR: Name invalid. The name must have the following syntax: nameCase_versionCamelCase or only nameCamelCase"⟩,
    ⟨some (.testNeuralNetworkCommand, [name, option.extensive, option.verbose]),
      verdict env .testNeuralNetworkCommand [name, option.extensive, option.verbose], 4,
      "ERROR: Make sure you have run the create command or have the test data file in your respective folder"⟩ ]

/-- Ordered checks of `compare`: project root (1), parameters (2), base-name
syntax (3), command logic (4). -/
def compareChecks (env : Env) (baseName : JsVal) (option : CmdOptions) : List Check :=
  [ ⟨some (.validateProject, []), verdict env .validateProject [], 1,
      "ERROR: Go to the root of the project"⟩,
    ⟨some (.validateParams, [baseName]), verdict env .validateParams [baseName], 2,
      "ERROR: Missing parameters"⟩,
    ⟨some (.validateBaseName, [baseName]), verdict env .validateBaseName [baseName], 3,
      "ERROR: Base name invalid. The name must have camelCase syntax"⟩,
    ⟨some (.compareNeuralNetworkCommand, [baseName, option.top, option.verbose]),
      verdict env .compareNeuralNetworkCommand [baseName, option.top, option.verbose], 4,
      "ERROR: Make sure you have two or more neural networks or have the test data file in your respective folder"⟩ ]

/-! ## Comparison logic (absent from `src/`) -/

/-- Modelled from the spec: the error kinds of section 7; the comparison logic
of `./commandsLogic/compare` is not among the source files. -/
inductive CoreError where
  | invalidArchitecture
  | dimensionMismatch
  | emptyTrainingSet
  | emptyTestSet
  | modelNotFound
  | corruptArtifact
  | insufficientModels
  deriving DecidableEq

/-- Modelled from the spec: identity of a stored artifact (section 4.6), a bare
base name (no version suffix, implicit version 0) or `baseName_version`; the
model registry is not among the source files. -/
structure Identity where
  baseName : String
  version : Option Nat
  deriving DecidableEq

/-- Modelled from the spec: version number of an identity, 0 for a bare base
name (section 4.6); the model registry is not among the source files. -/
def Identity.versionNumber (i : Identity) : Nat := i.version.getD 0

/-- Modelled from the spec: `ModelRegistry.listVersions` (section 4.6), all
persisted identities sharing the base name, by ascending version; the model
registry is not among the source files. -/
def listVersions (store : List Identity) (baseName : String) : List Identity :=
  (store.filter fun i => i.baseName == baseName).insertionSort
    fun a b => a.versionNumber ≤ b.versionNumber

/-- Modelled from the spec: one line of a `ComparisonReport` (section 3); the
comparison logic is not among the source files. -/
structure ReportEntry where
  identity : Identity
  errorRate : ℚ
  performanceScore : ℚ
  deriving DecidableEq

/-- Modelled from the spec: `performanceScore` as `1 − errorRate` clamped to
be at least 0 (section 4.7); the comparison logic is not among the source
files. -/
def performanceScore (errorRate : ℚ) : ℚ := max 0 (1 - errorRate)

/-- Modelled from the spec: ranking order of section 4.7, descending score,
ties by lower error rate, then by ascending version; the comparison logic is
not among the source files. -/
def ranksBefore (a b : ReportEntry) : Prop :=
  b.performanceScore < a.performanceScore ∨
    (a.performanceScore = b.performanceScore ∧
      (a.errorRate < b.errorRate ∨
        (a.errorRate = b.errorRate ∧
          a.identity.versionNumber ≤ b.identity.versionNumber)))

instance : DecidableRel ranksBefore := fun a b => by
  unfold ranksBefore
  exact inferInstance

/-- Modelled from the spec: `Comparator.compare(baseName, testSet, topK)`
(section 4.7); `evaluate` stands for loading a version and scoring it on the
test set. The comparison logic of `./commandsLogic/compare` is not among the
source files. -/
def compare (store : List Identity) (evaluate : Identity → Except CoreError ℚ)
    (baseName : String) (topK : Option Nat) : Except CoreError (List ReportEntry) :=
  let versions := listVersions store baseName
  if versions.length < 2 then .error .insufficientModels
  else do
    let entries ← versions.mapM fun i => do
      let errorRate ← evaluate i
      pure (ReportEntry.mk i errorRate (performanceScore errorRate))
    let ranked := entries.insertionSort ranksBefore
    pure (match topK with
      | some k => ranked.take k
      | none => ranked)

/-- Modelled from the spec: the typed success/failure result of the command
logic as `index.js` receives it (section 6); `index.js` looks only at its
truthiness, a success being truthy and a failure falsy. The command logic is
not among the source files. -/
def commandResult {α : Type} : Except CoreError α → JsVal
  | .ok _ => .bool true
  | .error _ => .bool false

/-! ## Sample environments -/

/-- Environment in which every imported function returns `true`. -/
def acceptAll : Env := fun _ _ => .ret (.bool true)

/-- Environment in which every validator returns `true` and every command
logic returns `result`. -/
def logicReturns (result : JsVal) : Env := fun f _ =>
  match f with
  | .compareNeuralNetworkCommand => .ret result
  | .createProjectStructure => .ret result
  | .runNeuralNetworkCommand => .ret result
  | .testNeuralNetworkCommand => .ret result
  | .trainAndCreateNeuralNetwortCommand => .ret result
  | _ => .ret (.bool true)

/-- Environment in which every validator returns `true` and
`createProjectStructure` throws. -/
def structureThrows : Env := fun f _ =>
  match f with
  | .createProjectStructure => .throw ⟨"EEXIST: file already exists"⟩
  | _ => .ret (.bool true)

/-- Environment in which `validateName` and `validateBaseName` return `false`
and every other imported function returns `true`. -/
def namesRejected : Env := fun f _ =>
  match f with
  | .validateName => .ret (.bool false)
  | .validateBaseName => .ret (.bool false)
  | _ => .ret (.bool true)

/-- Modelled from the spec: environment of a run whose store holds the single
version `net_1`; the comparison logic is `compare` over that store without a
limit, `validateProject` answers `insideProject`, the other validators accept.
The comparison logic is not among the source files. -/
def singleVersionProject (insideProject : Bool) : Env := fun f _ =>
  match f with
  | .validateProject => .ret (.bool insideProject)
  | .compareNeuralNetworkCommand =>
    .ret (commandResult (compare [⟨"net", some 1⟩] (fun _ => .ok 0) "net" none))
  | _ => .ret (.bool true)

/-- Options of an invocation without any flag. -/
def noFlags : CmdOptions := ⟨.undefined, .undefined, .undefined⟩

/-! ## Stepping through an action -/

theorem run_bind {α β : Type} (m : Cli α) (k : α → Cli β) (s : St) :
    (m >>= k) s = match m s with
      | .ok a s1 => k a s1
      | .exit c s1 => .exit c s1
      | .throw e s1 => .throw e s1 := rfl

theorem run_pure {α : Type} (a : α) (s : St) : (pure a : Cli α) s = .ok a s := rfl

theorem setCommand_bind (b : Bool) (k : Unit → Cli Unit) (s : St) :
    (setCommand b >>= k) s = k () ⟨b, s.trace⟩ := rfl

theorem exitIf_bind (c : Bool) (msg : String) (code : Nat) (k : Unit → Cli Unit) (s : St) :
    (exitIf c msg code >>= k) s
      = if c then .exit code ⟨s.command, s.trace ++ [.error msg]⟩ else k () s := by
  cases c <;> simp [exitIf, run_bind, run_pure, printError, processExit]

/-- A check that is followed by more statements. -/
theorem check_step (env : Env) (f : Fn) (args : List JsVal)
    (msg : String) (code : Nat) (k : Cli Unit) (s : St) :
    (call env f args >>= fun v => exitIf (!v.truthy) msg code >>= fun _ => k) s
      = match verdict env f args with
        | .pass => k ⟨s.command, s.trace ++ [.call f args]⟩
        | .fail => .exit code ⟨s.command, s.trace ++ [.call f args, .error msg]⟩
        | .raise e => .throw e ⟨s.command, s.trace ++ [.call f args]⟩ := by
  unfold verdict
  cases hv : env f args with
  | ret v =>
    cases ht : v.truthy <;>
      simp [run_bind, call, hv, exitIf, ht, run_pure, printError, processExit]
  | throw e => simp [run_bind, call, hv]

/-- The check that ends an action. -/
theorem last_step (env : Env) (f : Fn) (args : List JsVal)
    (msg : String) (code : Nat) (s : St) :
    (call env f args >>= fun v => exitIf (!v.truthy) msg code) s
      = match verdict env f args with
        | .pass => .ok () ⟨s.command, s.trace ++ [.call f args]⟩
        | .fail => .exit code ⟨s.command, s.trace ++ [.call f args, .error msg]⟩
        | .raise e => .throw e ⟨s.command, s.trace ++ [.call f args]⟩ := by
  unfold verdict
  cases hv : env f args with
  | ret v =>
    cases ht : v.truthy <;>
      simp [run_bind, call, hv, exitIf, ht, run_pure, printError, processExit]
  | throw e => simp [run_bind, call, hv]

/-- The `try`/`catch` block that ends `init`: a thrown error is caught and
its message printed. -/
theorem tryCatch_step (env : Env) (f : Fn) (args : List JsVal) (s : St) :
    tryCatch (do let _ ← call env f args)
        (fun error => printError ("ERROR: " ++ error.message)) s
      = match env f args with
        | .ret _ => .ok () ⟨s.command, s.trace ++ [.call f args]⟩
        | .throw e =>
          .ok () ⟨s.command, s.trace ++ [.call f args, .error ("ERROR: " ++ e.message)]⟩ := by
  cases hv : env f args <;> simp [tryCatch, run_bind, run_pure, call, hv, printError]

/-- Verdict of a call that returns `v`. -/
theorem verdict_of_ret {env : Env} {f : Fn} {args : List JsVal} {v : JsVal}
    (h : env f args = .ret v) :
    verdict env f args = if v.truthy then .pass else .fail := by
  simp [verdict, h]

/-- Verdict of a call that throws `e`. -/
theorem verdict_of_throw {env : Env} {f : Fn} {args : List JsVal} {e : JsError}
    (h : env f args = .throw e) : verdict env f args = .raise e := by
  simp [verdict, h]

/-! ## Architecture length (create) -/

/-- C1: for every name and every architecture with fewer than 3 widths (the
empty list included), when the project, parameter and name checks pass the
create command prints the architecture error and exits with code 3 without
calling `trainAndCreateNeuralNetwortCommand`; and whatever the checks answer,
a call of `trainAndCreateNeuralNetwortCommand` happens only for an
architecture of length at least 3. -/
theorem create_short_architecture_rejected (env : Env) (name : JsVal)
    (architecture : List String) (option : CmdOptions) :
    (verdict env .validateProject [] = .pass →
      verdict env .validateParams [name, .arr architecture] = .pass →
      verdict env .validateName [name] = .pass →
      architecture.length < 3 →
        createAction env name architecture option St.init =
          .exit 3 ⟨true,
            [.call .validateProject [],
              .call .validateParams [name, .arr architecture],
              .call .validateName [name],
              .error "ERROR: Architecture invalid. The architecture must have three or more layers"]⟩)
    ∧ (∀ args, Event.call .trainAndCreateNeuralNetwortCommand args ∈
          (createAction env name architecture option St.init).state.trace →
        3 ≤ architecture.length) := by
  constructor
  · intro h1 h2 h3 hl
    simp [createAction, setCommand_bind, exitIf_bind, check_step, St.init, h1, h2, h3, hl]
  · intro args
    by_cases hl : architecture.length < 3
    · cases h1 : verdict env .validateProject [] <;>
      cases h2 : verdict env .validateParams [name, .arr architecture] <;>
      cases h3 : verdict env .validateName [name] <;>
      simp [createAction, setCommand_bind, exitIf_bind, check_step, St.init, h1, h2, h3, hl,
        Res.state]
    · intro _
      omega

/-- Witness for C1: the two-width architecture `["2", "1"]` in an environment
whose validators all accept. -/
theorem create_short_architecture_rejected_witness :
    ["2", "1"].length < 3 ∧
    createAction acceptAll (.str "net") ["2", "1"] noFlags St.init =
      .exit 3 ⟨true,
        [.call .validateProject [],
          .call .validateParams [.str "net", .arr ["2", "1"]],
          .call .validateName [.str "net"],
          .error "ERROR: Architecture invalid. The architecture must have three or more layers"]⟩ :=
  ⟨by decide,
    (create_short_architecture_rejected acceptAll (.str "net") ["2", "1"] noFlags).1
      rfl rfl rfl (by decide)⟩

/-- Counterexample to C2: the architecture `["2", "0", "1"]` has three entries
and a width 0, yet with accepting validators the create command prints no
error, does not exit, and calls `trainAndCreateNeuralNetwortCommand` with that
very architecture. -/
theorem create_zero_width_reaches_training :
    createAction acceptAll (.str "net") ["2", "0", "1"] noFlags St.init =
      .ok () ⟨true,
        [.call .validateProject [],
          .call .validateParams [.str "net", .arr ["2", "0", "1"]],
          .call .validateName [.str "net"],
          .call .trainAndCreateNeuralNetwortCommand
            [.str "net", .arr ["2", "0", "1"], .undefined]]⟩ := by
  decide

/-- C2 (amended): for every architecture of 3 or more entries, whatever its
widths, the create command never prints the architecture error; when the
project, parameter and name checks pass it calls
`trainAndCreateNeuralNetwortCommand` with the name, the unchanged architecture
and the verbose flag, and it does not exit with code 3. -/
theorem create_long_architecture_reaches_training (env : Env) (name : JsVal)
    (architecture : List String) (option : CmdOptions)
    (hlen : 3 ≤ architecture.length) :
    Event.error "ERROR: Architecture invalid. The architecture must have three or more layers" ∉
        (createAction env name architecture option St.init).state.trace
    ∧ (verdict env .validateProject [] = .pass →
        verdict env .validateParams [name, .arr architecture] = .pass →
        verdict env .validateName [name] = .pass →
          calls (createAction env name architecture option St.init).state.trace =
            [(.validateProject, []),
              (.validateParams, [name, .arr architecture]),
              (.validateName, [name]),
              (.trainAndCreateNeuralNetwortCommand, [name, .arr architecture, option.verbose])]
          ∧ (createAction env name architecture option St.init).exitCode ≠ some 3) := by
  have hl : ¬ architecture.length < 3 := by omega
  constructor
  · cases h1 : verdict env .validateProject [] <;>
    cases h2 : verdict env .validateParams [name, .arr architecture] <;>
    cases h3 : verdict env .validateName [name] <;>
    cases h4 : verdict env .trainAndCreateNeuralNetwortCommand
      [name, .arr architecture, option.verbose] <;>
    simp only [createAction, setCommand_bind, exitIf_bind, check_step, last_step, St.init,
      h1, h2, h3, h4] <;>
    simp [hl, Res.state]
  · intro h1 h2 h3
    cases h4 : verdict env .trainAndCreateNeuralNetwortCommand
      [name, .arr architecture, option.verbose] <;>
    simp only [createAction, setCommand_bind, exitIf_bind, check_step, last_step, St.init,
      h1, h2, h3, h4] <;>
    simp [hl, Res.state, Res.exitCode, calls]

/-- Witness for C2 (amended): the architecture `["2", "0", "1"]` with accepting
validators. -/
theorem create_long_architecture_reaches_training_witness :
    3 ≤ ["2", "0", "1"].length ∧
    calls (createAction acceptAll (.str "net") ["2", "0", "1"] noFlags St.init).state.trace =
      [(.validateProject, []),
        (.validateParams, [.str "net", .arr ["2", "0", "1"]]),
        (.validateName, [.str "net"]),
        (.trainAndCreateNeuralNetwortCommand, [.str "net", .arr ["2", "0", "1"], .undefined])] :=
  ⟨by decide,
    ((create_long_architecture_reaches_training acceptAll (.str "net") ["2", "0", "1"] noFlags
      (by decide)).2 rfl rfl rfl).1⟩

/-! ## Translation of the command logic's result -/

/-- C3: for create, run, test and compare, when every validation check passes
and the command logic returns a value `v`, the outcome is decided by the
truthiness of `v` alone: on a truthy `v` nothing is printed and
`process.exit` is not called, on a falsy `v` the command's own error message
is printed and the process exits with code 4. -/
theorem logic_result_translated (env : Env) (name input baseName : JsVal)
    (architecture : List String) (option : CmdOptions) (v : JsVal) :
    (verdict env .validateProject [] = .pass →
      verdict env .validateParams [name, .arr architecture] = .pass →
      verdict env .validateName [name] = .pass →
      3 ≤ architecture.length →
      env .trainAndCreateNeuralNetwortCommand [name, .arr architecture, option.verbose]
        = .ret v →
        createAction env name architecture option St.init =
          if v.truthy then
            .ok () ⟨true,
              [.call .validateProject [],
                .call .validateParams [name, .arr architecture],
                .call .validateName [name],
                .call .trainAndCreateNeuralNetwortCommand
                  [name, .arr architecture, option.verbose]]⟩
          else
            .exit 4 ⟨true,
              [.call .validateProject [],
                .call .validateParams [name, .arr architecture],
                .call .validateName [name],
                .call .trainAndCreateNeuralNetwortCommand
                  [name, .arr architecture, option.verbose],
                .error "ERROR: Make sure you have the training data file in its respective folder"]⟩)
    ∧ (verdict env .validateProject [] = .pass →
      verdict env .validateParams [name, input] = .pass →
      verdict env .validateName [name] = .pass →
      verdict env .validateInputArray [input] = .pass →
      env .runNeuralNetworkCommand [name, input, option.verbose] = .ret v →
        runAction env name input option St.init =
          if v.truthy then
            .ok () ⟨true,
              [.call .validateProject [],
                .call .validateParams [name, input],
                .call .validateName [name],
                .call .validateInputArray [input],
                .call .runNeuralNetworkCommand [name, input, option.verbose]]⟩
          else
            .exit 4 ⟨true,
              [.call .validateProject [],
                .call .validateParams [name, input],
                .call .validateName [name],
                .call .validateInputArray [input],
                .call .runNeuralNetworkCommand [name, input, option.verbose],
                .error "ERROR: Make sure you have run the create command"]⟩)
    ∧ (verdict env .validateProject [] = .pass →
      verdict env .validateParams [name] = .pass →
      verdict env .validateName [name] = .pass →
      env .testNeuralNetworkCommand [name, option.extensive, option.verbose] = .ret v →
        testAction env name option St.init =
          if v.truthy then
            .ok () ⟨true,
              [.call .validateProject [],
                .call .validateParams [name],
                .call .validateName [name],
                .call .testNeuralNetworkCommand [name, option.extensive, option.verbose]]⟩
          else
            .exit 4 ⟨true,
              [.call .validateProject [],
                .call .validateParams [name],
                .call .validateName [name],
                .call .testNeuralNetworkCommand [name, option.extensive, option.verbose],
                .error "ERROR: Make sure you have run the create command or have the test data file in your respective folder"]⟩)
    ∧ (verdict env .validateProject [] = .pass →
      verdict env .validateParams [baseName] = .pass →
      verdict env .validateBaseName [baseName] = .pass →
      env .compareNeuralNetworkCommand [baseName, option.top, option.verbose] = .ret v →
        compareAction env baseName option St.init =
          if v.truthy then
            .ok () ⟨true,
              [.call .validateProject [],
                .call .validateParams [baseName],
                .call .validateBaseName [baseName],
                .call .compareNeuralNetworkCommand [baseName, option.top, option.verbose]]⟩
          else
            .exit 4 ⟨true,
              [.call .validateProject [],
                .call .validateParams [baseName],
                .call .validateBaseName [baseName],
                .call .compareNeuralNetworkCommand [baseName, option.top, option.verbose],
                .error "ERROR: Make sure you have two or more neural networks or have the test data file in your respective folder"]⟩) := by
  refine ⟨?_, ?_, ?_, ?_⟩
  · intro h1 h2 h3 hlen hv
    have hl : ¬ architecture.length < 3 := by omega
    have h4 := verdict_of_ret hv
    cases ht : v.truthy <;>
      simp [createAction, setCommand_bind, exitIf_bind, check_step, last_step, St.init,
        h1, h2, h3, h4, hl, ht]
  · intro h1 h2 h3 h4 hv
    have h5 := verdict_of_ret hv
    cases ht : v.truthy <;>
      simp [runAction, setCommand_bind, check_step, last_step, St.init, h1, h2, h3, h4, h5, ht]
  · intro h1 h2 h3 hv
    have h4 := verdict_of_ret hv
    cases ht : v.truthy <;>
      simp [testAction, setCommand_bind, check_step, last_step, St.init, h1, h2, h3, h4, ht]
  · intro h1 h2 h3 hv
    have h4 := verdict_of_ret hv
    cases ht : v.truthy <;>
      simp [compareAction, setCommand_bind, check_step, last_step, St.init, h1, h2, h3, h4, ht]

/-- Witness for C3: with accepting validators and a command logic that
returns `false`, each of the four commands prints its own error and exits
with code 4. -/
theorem logic_result_translated_witness :
    (createAction (logicReturns (.bool false)) (.str "net") ["2", "3", "1"] noFlags
        St.init).exitCode = some 4
    ∧ (runAction (logicReturns (.bool false)) (.str "net") (.str "[1,0]") noFlags
        St.init).exitCode = some 4
    ∧ (testAction (logicReturns (.bool false)) (.str "net") noFlags St.init).exitCode = some 4
    ∧ (compareAction (logicReturns (.bool false)) (.str "net") noFlags St.init).exitCode
        = some 4 := by
  have h := logic_result_translated (logicReturns (.bool false)) (.str "net") (.str "[1,0]")
    (.str "net") ["2", "3", "1"] noFlags (.bool false)
  refine ⟨?_, ?_, ?_, ?_⟩
  · rw [h.1 rfl rfl rfl (by decide) rfl]; rfl
  · rw [h.2.1 rfl rfl rfl rfl rfl]; rfl
  · rw [h.2.2.1 rfl rfl rfl rfl]; rfl
  · rw [h.2.2.2 rfl rfl rfl rfl]; rfl

/-! ## Failures of the run logic -/

/-- Counterexample to C4: two failing runs of the same model on the same
input, whose run logic signals its failure by different values (`null` in one,
`false` in the other, as two failure kinds would), end in exactly the same
outcome: the same message and exit code 4. -/
theorem run_failures_reported_alike :
    JsVal.null ≠ JsVal.bool false
    ∧ runAction (logicReturns .null) (.str "net") (.str "[1,0,1]") noFlags St.init =
        .exit 4 ⟨true,
          [.call .validateProject [],
            .call .validateParams [.str "net", .str "[1,0,1]"],
            .call .validateName [.str "net"],
            .call .validateInputArray [.str "[1,0,1]"],
            .call .runNeuralNetworkCommand [.str "net", .str "[1,0,1]", .undefined],
            .error "ERROR: Make sure you have run the create command"]⟩
    ∧ runAction (logicReturns (.bool false)) (.str "net") (.str "[1,0,1]") noFlags St.init =
        runAction (logicReturns .null) (.str "net") (.str "[1,0,1]") noFlags St.init := by
  decide

/-- C4 (amended): when the checks of run pass, every failure that the run
logic signals through a falsy return value is reported in the same way,
whatever the value: the message `ERROR: Make sure you have run the create
command` and exit code 4; only an error thrown by the run logic leaves the
action unchanged, as the very exception that was thrown, with nothing
printed. -/
theorem run_failure_kinds_collapse (env : Env) (name input : JsVal) (option : CmdOptions)
    (h1 : verdict env .validateProject [] = .pass)
    (h2 : verdict env .validateParams [name, input] = .pass)
    (h3 : verdict env .validateName [name] = .pass)
    (h4 : verdict env .validateInputArray [input] = .pass) :
    (∀ v, env .runNeuralNetworkCommand [name, input, option.verbose] = .ret v →
        v.truthy = false →
        runAction env name input option St.init =
          .exit 4 ⟨true,
            [.call .validateProject [],
              .call .validateParams [name, input],
              .call .validateName [name],
              .call .validateInputArray [input],
              .call .runNeuralNetworkCommand [name, input, option.verbose],
              .error "ERROR: Make sure you have run the create command"]⟩)
    ∧ (∀ e, env .runNeuralNetworkCommand [name, input, option.verbose] = .throw e →
        runAction env name input option St.init =
          .throw e ⟨true,
            [.call .validateProject [],
              .call .validateParams [name, input],
              .call .validateName [name],
              .call .validateInputArray [input],
              .call .runNeuralNetworkCommand [name, input, option.verbose]]⟩) := by
  constructor
  · intro v hv ht
    have h5 := verdict_of_ret hv
    simp [runAction, setCommand_bind, check_step, last_step, St.init, h1, h2, h3, h4, h5, ht]
  · intro e he
    have h5 := verdict_of_throw he
    simp [runAction, setCommand_bind, check_step, last_step, St.init, h1, h2, h3, h4, h5]

/-- Witness for C4 (amended): a run logic that returns `0`. -/
theorem run_failure_kinds_collapse_witness :
    runAction (logicReturns (.num 0)) (.str "net") (.str "[1,0,1]") noFlags St.init =
      .exit 4 ⟨true,
        [.call .validateProject [],
          .call .validateParams [.str "net", .str "[1,0,1]"],
          .call .validateName [.str "net"],
          .call .validateInputArray [.str "[1,0,1]"],
          .call .runNeuralNetworkCommand [.str "net", .str "[1,0,1]", .undefined],
          .error "ERROR: Make sure you have run the create command"]⟩ :=
  (run_failure_kinds_collapse (logicReturns (.num 0)) (.str "net") (.str "[1,0,1]") noFlags
    rfl rfl rfl rfl).1 (.num 0) rfl rfl

/-! ## The `--top` option of compare -/

/-- C7: the compare command hands the value of `--top` to the comparison logic
unchanged. Every call of `compareNeuralNetworkCommand` it makes has exactly the
arguments base name, `option.top`, `option.verbose` (so `undefined` when
`--top` was omitted); when the checks pass that call is made, and after a
truthy result the command does nothing more: it prints nothing and does not
exit. -/
theorem compare_top_passed_unchanged (env : Env) (baseName : JsVal) (option : CmdOptions) :
    (∀ args, Event.call .compareNeuralNetworkCommand args ∈
          (compareAction env baseName option St.init).state.trace →
        args = [baseName, option.top, option.verbose])
    ∧ (verdict env .validateProject [] = .pass →
        verdict env .validateParams [baseName] = .pass →
        verdict env .validateBaseName [baseName] = .pass →
          Event.call .compareNeuralNetworkCommand [baseName, option.top, option.verbose] ∈
            (compareAction env baseName option St.init).state.trace)
    ∧ (verdict env .validateProject [] = .pass →
        verdict env .validateParams [baseName] = .pass →
        verdict env .validateBaseName [baseName] = .pass →
        verdict env .compareNeuralNetworkCommand [baseName, option.top, option.verbose]
          = .pass →
          compareAction env baseName option St.init =
            .ok () ⟨true,
              [.call .validateProject [],
                .call .validateParams [baseName],
                .call .validateBaseName [baseName],
                .call .compareNeuralNetworkCommand
                  [baseName, option.top, option.verbose]]⟩) := by
  refine ⟨?_, ?_, ?_⟩
  · intro args
    cases h1 : verdict env .validateProject [] <;>
    cases h2 : verdict env .validateParams [baseName] <;>
    cases h3 : verdict env .validateBaseName [baseName] <;>
    cases h4 : verdict env .compareNeuralNetworkCommand
      [baseName, option.top, option.verbose] <;>
    simp [compareAction, setCommand_bind, check_step, last_step, St.init, h1, h2, h3, h4,
      Res.state]
  · intro h1 h2 h3
    cases h4 : verdict env .compareNeuralNetworkCommand
      [baseName, option.top, option.verbose] <;>
    simp [compareAction, setCommand_bind, check_step, last_step, St.init, h1, h2, h3, h4,
      Res.state]
  · intro h1 h2 h3 h4
    simp [compareAction, setCommand_bind, check_step, last_step, St.init, h1, h2, h3, h4]

/-- Witness for C7: `compare net --top 2` and `compare net` with accepting
validators; the logic receives `"2"`, respectively `undefined`. -/
theorem compare_top_passed_unchanged_witness :
    Event.call .compareNeuralNetworkCommand [.str "net", .str "2", .undefined] ∈
      (compareAction acceptAll (.str "net") ⟨.undefined, .undefined, .str "2"⟩
        St.init).state.trace
    ∧ Event.call .compareNeuralNetworkCommand [.str "net", .undefined, .undefined] ∈
      (compareAction acceptAll (.str "net") noFlags St.init).state.trace :=
  ⟨(compare_top_passed_unchanged acceptAll (.str "net")
      ⟨.undefined, .undefined, .str "2"⟩).2.1 rfl rfl rfl,
    (compare_top_passed_unchanged acceptAll (.str "net") noFlags).2.1 rfl rfl rfl⟩

/-! ## The init command -/

/-- C9: for init, when the name passes `validateParams` and `validateBaseName`
and `createProjectStructure` throws an error `e`, the error is caught: after
the three calls exactly `ERROR: ` followed by `e.message` is printed and the
action runs to its end, without `process.exit` and without a propagating
exception. Whatever the environment, init never calls `validateProject` and
never exits with code 1 or 4. -/
theorem init_catches_structure_error (env : Env) (name : JsVal) (option : CmdOptions) :
    (∀ e, verdict env .validateParams [name] = .pass →
        verdict env .validateBaseName [name] = .pass →
        env .createProjectStructure [name, option.verbose] = .throw e →
          initAction env name option St.init =
            .ok () ⟨true,
              [.call .validateParams [name],
                .call .validateBaseName [name],
                .call .createProjectStructure [name, option.verbose],
                .error ("ERROR: " ++ e.message)]⟩)
    ∧ (∀ args, Event.call .validateProject args ∉
        (initAction env name option St.init).state.trace)
    ∧ (initAction env name option St.init).exitCode ≠ some 1
    ∧ (initAction env name option St.init).exitCode ≠ some 4 := by
  refine ⟨?_, ?_, ?_, ?_⟩
  · intro e h1 h2 he
    simp [initAction, setCommand_bind, check_step, tryCatch_step, St.init, h1, h2, he]
  · intro args
    cases h1 : verdict env .validateParams [name] <;>
    cases h2 : verdict env .validateBaseName [name] <;>
    cases h3 : env .createProjectStructure [name, option.verbose] <;>
    simp [initAction, setCommand_bind, check_step, tryCatch_step, St.init, h1, h2, h3,
      Res.state]
  · cases h1 : verdict env .validateParams [name] <;>
    cases h2 : verdict env .validateBaseName [name] <;>
    cases h3 : env .createProjectStructure [name, option.verbose] <;>
    simp [initAction, setCommand_bind, check_step, tryCatch_step, St.init, h1, h2, h3,
      Res.exitCode]
  · cases h1 : verdict env .validateParams [name] <;>
    cases h2 : verdict env .validateBaseName [name] <;>
    cases h3 : env .createProjectStructure [name, option.verbose] <;>
    simp [initAction, setCommand_bind, check_step, tryCatch_step, St.init, h1, h2, h3,
      Res.exitCode]

/-- Witness for C9: `createProjectStructure` throws an error with the message
`EEXIST: file already exists`. -/
theorem init_catches_structure_error_witness :
    initAction structureThrows (.str "demo") noFlags St.init =
      .ok () ⟨true,
        [.call .validateParams [.str "demo"],
          .call .validateBaseName [.str "demo"],
          .call .createProjectStructure [.str "demo", .undefined],
          .error "ERROR: EEXIST: file already exists"]⟩ :=
  (init_catches_structure_error structureThrows (.str "demo") noFlags).1
    ⟨"EEXIST: file already exists"⟩ rfl rfl rfl

/-! ## The command flag -/

/-- After `init`, in any state and with any outcome, the flag is set. -/
theorem initAction_command (env : Env) (name : JsVal) (option : CmdOptions) (s : St) :
    (initAction env name option s).state.command = true := by
  simp only [initAction, setCommand_bind, check_step, tryCatch_step]
  repeat' (first | rfl | split)

/-- After `create`, in any state and with any outcome, the flag is set. -/
theorem createAction_command (env : Env) (name : JsVal) (architecture : List String)
    (option : CmdOptions) (s : St) :
    (createAction env name architecture option s).state.command = true := by
  simp only [createAction, setCommand_bind, exitIf_bind, check_step, last_step]
  repeat' (first | rfl | split)

/-- After `run`, in any state and with any outcome, the flag is set. -/
theorem runAction_command (env : Env) (name input : JsVal) (option : CmdOptions) (s : St) :
    (runAction env name input option s).state.command = true := by
  simp only [runAction, setCommand_bind, check_step, last_step]
  repeat' (first | rfl | split)

/-- After `test`, in any state and with any outcome, the flag is set. -/
theorem testAction_command (env : Env) (name : JsVal) (option : CmdOptions) (s : St) :
    (testAction env name option s).state.command = true := by
  simp only [testAction, setCommand_bind, check_step, last_step]
  repeat' (first | rfl | split)

/-- After `compare`, in any state and with any outcome, the flag is set. -/
theorem compareAction_command (env : Env) (baseName : JsVal) (option : CmdOptions)
    (s : St) :
    (compareAction env baseName option s).state.command = true := by
  simp only [compareAction, setCommand_bind, check_step, last_step]
  repeat' (first | rfl | split)

/-- Every action leaves the flag set, in any state and with any outcome. -/
theorem action_command (env : Env) (inv : Invocation) (s : St) :
    ((inv.action env) s).state.command = true := by
  cases inv with
  | init name option => exact initAction_command env name option s
  | create name architecture option => exact createAction_command env name architecture option s
  | run name input option => exact runAction_command env name input option s
  | test name option => exact testAction_command env name option s
  | compare baseName option => exact compareAction_command env baseName option s

/-- Running the dispatched actions unfolds into the first action followed by
the rest. -/
theorem runActions_cons (env : Env) (inv : Invocation) (rest : List Invocation) (s : St) :
    runActions env (inv :: rest) s =
      match (inv.action env) s with
      | .ok _ s1 => runActions env rest s1
      | .exit c s1 => .exit c s1
      | .throw e s1 => .throw e s1 := by
  rw [runActions, run_bind]
  cases (inv.action env) s <;> rfl

/-- The flag is never reset: dispatched actions that start with the flag set
end with the flag set. -/
theorem runActions_keeps_command (env : Env) (dispatched : List Invocation) :
    ∀ s : St, s.command = true → (runActions env dispatched s).state.command = true := by
  induction dispatched with
  | nil => intro s hs; exact hs
  | cons inv rest ih =>
    intro s _
    rw [runActions_cons]
    have ha := action_command env inv s
    cases hr : (inv.action env) s with
    | ok a s1 =>
      rw [hr] at ha
      exact ih s1 ha
    | exit c s1 =>
      rw [hr] at ha
      exact ha
    | throw e s1 =>
      rw [hr] at ha
      exact ha

/-- Dispatching to at least one action ends with the flag set. -/
theorem runActions_sets_command (env : Env) (inv : Invocation) (rest : List Invocation)
    (s : St) : (runActions env (inv :: rest) s).state.command = true := by
  rw [runActions_cons]
  have ha := action_command env inv s
  cases hr : (inv.action env) s with
  | ok a s1 =>
    rw [hr] at ha
    exact runActions_keeps_command env rest s1 ha
  | exit c s1 =>
    rw [hr] at ha
    exact ha
  | throw e s1 =>
    rw [hr] at ha
    exact ha

/-- A script run that dispatched to at least one action ends exactly as the
parsing step ended. -/
theorem main_of_dispatch (env : Env) (inv : Invocation) (rest : List Invocation) :
    main env (.dispatches (inv :: rest)) = parse env (.dispatches (inv :: rest)) St.init := by
  have hc := runActions_sets_command env inv rest St.init
  unfold main
  rw [run_bind]
  simp only [parse] at *
  cases hr : runActions env (inv :: rest) St.init with
  | ok a s1 =>
    rw [hr] at hc
    simp only [Res.state] at hc
    simp [run_bind, getCommand, hc, run_pure]
  | exit c s1 => rfl
  | throw e s1 => rfl

/-- Counterexample to C10: when the parsing library ends the process itself
(as for `--help` or `-V`, exit code 0), no action runs and yet the script
prints nothing: the trace is empty and `ERROR: No command given` is absent. -/
theorem parser_exit_prints_no_message :
    main acceptAll (.ends 0) = .exit 0 ⟨false, []⟩
    ∧ Event.error "ERROR: No command given" ∉ (main acceptAll (.ends 0)).state.trace := by
  decide

/-- C10 (amended): the top-level check prints `ERROR: No command given`
exactly when `program.parse` returns to the script without having run any
action. Every action leaves the `command` flag set, in any state and whatever
its outcome; a run in which the parser dispatched to no action and returned
prints the message and nothing else; a run that dispatched to at least one
action ends exactly as the parsing step ended, the top-level check adding no
message; a run in which the parser itself ended the process ran no action and
printed nothing; so the run ends with the flag unset and the message as its
only event if and only if the parser returned without dispatching. -/
theorem no_command_message_iff_parse_returns_without_action (env : Env) :
    (∀ (inv : Invocation) (s : St), ((inv.action env) s).state.command = true)
    ∧ main env (.dispatches []) = .ok () ⟨false, [.error "ERROR: No command given"]⟩
    ∧ (∀ (inv : Invocation) (rest : List Invocation),
        main env (.dispatches (inv :: rest)) =
          parse env (.dispatches (inv :: rest)) St.init)
    ∧ (∀ code : Nat, main env (.ends code) = .exit code ⟨false, []⟩)
    ∧ (∀ run : ParseRun,
        main env run = .ok () ⟨false, [.error "ERROR: No command given"]⟩ ↔
          run = .dispatches []) := by
  refine ⟨action_command env, rfl, main_of_dispatch env, fun _ => rfl, ?_⟩
  intro run
  constructor
  · intro h
    cases run with
    | ends code =>
      have h2 : main env (.ends code) = .exit code ⟨false, []⟩ := rfl
      rw [h2] at h
      cases h
    | dispatches actions =>
      cases actions with
      | nil => rfl
      | cons inv rest =>
        have hc := runActions_sets_command env inv rest St.init
        rw [main_of_dispatch] at h
        simp only [parse] at h
        rw [h] at hc
        simp [Res.state] at hc
  · intro h
    rw [h]
    rfl

/-! ## Order of the checks -/

/-- C8: for create, run, test and compare the checks run in the fixed order
project root (exit 1), parameters (exit 2), name syntax (exit 3), then
architecture length for create and binary input array for run (exit 3), then
the command logic (exit 4). For every combination of check results the exit
code and the message printed are those of the first failing check in this
order, and the imported functions called are exactly those of the checks up
to and including the first one that does not pass: no later check and no
command logic runs. -/
theorem checks_run_in_order (env : Env) (name input baseName : JsVal)
    (architecture : List String) (option : CmdOptions) :
    ((createAction env name architecture option St.init).exitCode =
        (firstFailing (createChecks env name architecture option)).map (·.code)
      ∧ errors (createAction env name architecture option St.init).state.trace =
        ((firstFailing (createChecks env name architecture option)).map (·.message)).toList
      ∧ calls (createAction env name architecture option St.init).state.trace =
        (evaluatedChecks (createChecks env name architecture option)).filterMap (·.probe))
    ∧ ((runAction env name input option St.init).exitCode =
        (firstFailing (runChecks env name input option)).map (·.code)
      ∧ errors (runAction env name input option St.init).state.trace =
        ((firstFailing (runChecks env name input option)).map (·.message)).toList
      ∧ calls (runAction env name input option St.init).state.trace =
        (evaluatedChecks (runChecks env name input option)).filterMap (·.probe))
    ∧ ((testAction env name option St.init).exitCode =
        (firstFailing (testChecks env name option)).map (·.code)
      ∧ errors (testAction env name option St.init).state.trace =
        ((firstFailing (testChecks env name option)).map (·.message)).toList
      ∧ calls (testAction env name option St.init).state.trace =
        (evaluatedChecks (testChecks env name option)).filterMap (·.probe))
    ∧ ((compareAction env baseName option St.init).exitCode =
        (firstFailing (compareChecks env baseName option)).map (·.code)
      ∧ errors (compareAction env baseName option St.init).state.trace =
        ((firstFailing (compareChecks env baseName option)).map (·.message)).toList
      ∧ calls (compareAction env baseName option St.init).state.trace =
        (evaluatedChecks (compareChecks env baseName option)).filterMap (·.probe)) := by
  refine ⟨?_, ?_, ?_, ?_⟩
  · simp only [createAction, setCommand_bind, exitIf_bind, check_step, last_step, St.init,
      createChecks, lengthVerdict]
    cases verdict env .validateProject [] <;>
      simp [firstFailing, evaluatedChecks, calls, errors, Res.exitCode, Res.state]
    cases verdict env .validateParams [name, .arr architecture] <;>
      simp [firstFailing, evaluatedChecks, calls, errors, Res.exitCode, Res.state]
    cases verdict env .validateName [name] <;>
      simp [firstFailing, evaluatedChecks, calls, errors, Res.exitCode, Res.state]
    by_cases hl : architecture.length < 3 <;>
      simp [firstFailing, evaluatedChecks, calls, errors, Res.exitCode, Res.state, hl]
    cases verdict env .trainAndCreateNeuralNetwortCommand
        [name, .arr architecture, option.verbose] <;>
      simp [firstFailing, evaluatedChecks, calls, errors, Res.exitCode, Res.state]
  · simp only [runAction, setCommand_bind, check_step, last_step, St.init, runChecks]
    cases verdict env .validateProject [] <;>
      simp [firstFailing, evaluatedChecks, calls, errors, Res.exitCode, Res.state]
    cases verdict env .validateParams [name, input] <;>
      simp [firstFailing, evaluatedChecks, calls, errors, Res.exitCode, Res.state]
    cases verdict env .validateName [name] <;>
      simp [firstFailing, evaluatedChecks, calls, errors, Res.exitCode, Res.state]
    cases verdict env .validateInputArray [input] <;>
      simp [firstFailing, evaluatedChecks, calls, errors, Res.exitCode, Res.state]
    cases verdict env .runNeuralNetworkCommand [name, input, option.verbose] <;>
      simp [firstFailing, evaluatedChecks, calls, errors, Res.exitCode, Res.state]
  · simp only [testAction, setCommand_bind, check_step, last_step, St.init, testChecks]
    cases verdict env .validateProject [] <;>
      simp [firstFailing, evaluatedChecks, calls, errors, Res.exitCode, Res.state]
    cases verdict env .validateParams [name] <;>
      simp [firstFailing, evaluatedChecks, calls, errors, Res.exitCode, Res.state]
    cases verdict env .validateName [name] <;>
      simp [firstFailing, evaluatedChecks, calls, errors, Res.exitCode, Res.state]
    cases verdict env .testNeuralNetworkCommand [name, option.extensive, option.verbose] <;>
      simp [firstFailing, evaluatedChecks, calls, errors, Res.exitCode, Res.state]
  · simp only [compareAction, setCommand_bind, check_step, last_step, St.init, compareChecks]
    cases verdict env .validateProject [] <;>
      simp [firstFailing, evaluatedChecks, calls, errors, Res.exitCode, Res.state]
    cases verdict env .validateParams [baseName] <;>
      simp [firstFailing, evaluatedChecks, calls, errors, Res.exitCode, Res.state]
    cases verdict env .validateBaseName [baseName] <;>
      simp [firstFailing, evaluatedChecks, calls, errors, Res.exitCode, Res.state]
    cases verdict env .compareNeuralNetworkCommand [baseName, option.top, option.verbose] <;>
      simp [firstFailing, evaluatedChecks, calls, errors, Res.exitCode, Res.state]

/-! ## Name checks -/

/-- C6: each command calls its command logic only with a name its validator
accepted, `validateName` for create, run and test, `validateBaseName` for
compare and init, the name being the first argument of the call; and when the
earlier checks pass and the validator rejects the name, the command prints
its name error and exits with code 3 without calling its command logic. -/
theorem logic_called_only_with_accepted_name (env : Env) (name input baseName : JsVal)
    (architecture : List String) (option : CmdOptions) :
    ((∀ args, Event.call .trainAndCreateNeuralNetwortCommand args ∈
          (createAction env name architecture option St.init).state.trace →
        verdict env .validateName [name] = .pass ∧ args.head? = some name)
      ∧ (verdict env .validateProject [] = .pass →
        verdict env .validateParams [name, .arr architecture] = .pass →
        verdict env .validateName [name] = .fail →
          createAction env name architecture option St.init =
            .exit 3 ⟨true,
              [.call .validateProject [],
                .call .validateParams [name, .arr architecture],
                .call .validateName [name],
                .error "ERROR: Name invalid. The name must have the following syntax: nameCase_versionCamelCase or only nameCamelCase"]⟩))
    ∧ ((∀ args, Event.call .runNeuralNetworkCommand args ∈
          (runAction env name input option St.init).state.trace →
        verdict env .validateName [name] = .pass ∧ args.head? = some name)
      ∧ (verdict env .validateProject [] = .pass →
        verdict env .validateParams [name, input] = .pass →
        verdict env .validateName [name] = .fail →
          runAction env name input option St.init =
            .exit 3 ⟨true,
              [.call .validateProject [],
                .call .validateParams [name, input],
                .call .validateName [name],
                .error "ERROR: Name invalid. The name must have the following syntax: nameCase_versionCamelCase or only nameCamelCase"]⟩))
    ∧ ((∀ args, Event.call .testNeuralNetworkCommand args ∈
          (testAction env name option St.init).state.trace →
        verdict env .validateName [name] = .pass ∧ args.head? = some name)
      ∧ (verdict env .validateProject [] = .pass →
        verdict env .validateParams [name] = .pass →
        verdict env .validateName [name] = .fail →
          testAction env name option St.init =
            .exit 3 ⟨true,
              [.call .validateProject [],
                .call .validateParams [name],
                .call .validateName [name],
                .error "ERROR: Name invalid. The name must have the following syntax: nameCase_versionCamelCase or only nameCamelCase"]⟩))
    ∧ ((∀ args, Event.call .compareNeuralNetworkCommand args ∈
          (compareAction env baseName option St.init).state.trace →
        verdict env .validateBaseName [baseName] = .pass ∧ args.head? = some baseName)
      ∧ (verdict env .validateProject [] = .pass →
        verdict env .validateParams [baseName] = .pass →
        verdict env .validateBaseName [baseName] = .fail →
          compareAction env baseName option St.init =
            .exit 3 ⟨true,
              [.call .validateProject [],
                .call .validateParams [baseName],
                .call .validateBaseName [baseName],
                .error "ERROR: Base name invalid. The name must have camelCase syntax"]⟩))
    ∧ ((∀ args, Event.call .createProjectStructure args ∈
          (initAction env name option St.init).state.trace →
        verdict env .validateBaseName [name] = .pass ∧ args.head? = some name)
      ∧ (verdict env .validateParams [name] = .pass →
        verdict env .validateBaseName [name] = .fail →
          initAction env name option St.init =
            .exit 3 ⟨true,
              [.call .validateParams [name],
                .call .validateBaseName [name],
                .error "ERROR: Name invalid. The project name must have the camelCase syntax"]⟩)) := by
  refine ⟨⟨?_, ?_⟩, ⟨?_, ?_⟩, ⟨?_, ?_⟩, ⟨?_, ?_⟩, ⟨?_, ?_⟩⟩
  · intro args
    simp only [createAction, setCommand_bind, exitIf_bind, check_step, last_step, St.init]
    cases verdict env .validateProject [] <;> simp [Res.state]
    cases verdict env .validateParams [name, .arr architecture] <;> simp [Res.state]
    cases verdict env .validateName [name] <;> simp [Res.state]
    by_cases hl : architecture.length < 3 <;> simp [Res.state, hl]
    cases verdict env .trainAndCreateNeuralNetwortCommand
        [name, .arr architecture, option.verbose] <;>
      simp [Res.state] <;> intro h <;> simp [h]
  · intro h1 h2 h3
    simp [createAction, setCommand_bind, check_step, St.init, h1, h2, h3]
  · intro args
    simp only [runAction, setCommand_bind, check_step, last_step, St.init]
    cases verdict env .validateProject [] <;> simp [Res.state]
    cases verdict env .validateParams [name, input] <;> simp [Res.state]
    cases verdict env .validateName [name] <;> simp [Res.state]
    cases verdict env .validateInputArray [input] <;> simp [Res.state]
    cases verdict env .runNeuralNetworkCommand [name, input, option.verbose] <;>
      simp [Res.state] <;> intro h <;> simp [h]
  · intro h1 h2 h3
    simp [runAction, setCommand_bind, check_step, St.init, h1, h2, h3]
  · intro args
    simp only [testAction, setCommand_bind, check_step, last_step, St.init]
    cases verdict env .validateProject [] <;> simp [Res.state]
    cases verdict env .validateParams [name] <;> simp [Res.state]
    cases verdict env .validateName [name] <;> simp [Res.state]
    cases verdict env .testNeuralNetworkCommand [name, option.extensive, option.verbose] <;>
      simp [Res.state] <;> intro h <;> simp [h]
  · intro h1 h2 h3
    simp [testAction, setCommand_bind, check_step, St.init, h1, h2, h3]
  · intro args
    simp only [compareAction, setCommand_bind, check_step, last_step, St.init]
    cases verdict env .validateProject [] <;> simp [Res.state]
    cases verdict env .validateParams [baseName] <;> simp [Res.state]
    cases verdict env .validateBaseName [baseName] <;> simp [Res.state]
    cases verdict env .compareNeuralNetworkCommand [baseName, option.top, option.verbose] <;>
      simp [Res.state] <;> intro h <;> simp [h]
  · intro h1 h2 h3
    simp [compareAction, setCommand_bind, check_step, St.init, h1, h2, h3]
  · intro args
    simp only [initAction, setCommand_bind, check_step, tryCatch_step, St.init]
    cases verdict env .validateParams [name] <;> simp [Res.state]
    cases verdict env .validateBaseName [name] <;> simp [Res.state]
    cases env .createProjectStructure [name, option.verbose] <;>
      simp [Res.state] <;> intro h <;> simp [h]
  · intro h1 h2
    simp [initAction, setCommand_bind, check_step, St.init, h1, h2]

/-- Witness for C6: validators that reject every name while the other checks
pass; create, run, test, compare and init all exit with code 3. -/
theorem logic_called_only_with_accepted_name_witness :
    (createAction namesRejected (.str "bad name") ["2", "3", "1"] noFlags
        St.init).exitCode = some 3
    ∧ (runAction namesRejected (.str "bad name") (.str "[1,0]") noFlags St.init).exitCode
        = some 3
    ∧ (testAction namesRejected (.str "bad name") noFlags St.init).exitCode = some 3
    ∧ (compareAction namesRejected (.str "bad name") noFlags St.init).exitCode = some 3
    ∧ (initAction namesRejected (.str "bad name") noFlags St.init).exitCode = some 3 := by
  have h := logic_called_only_with_accepted_name namesRejected (.str "bad name")
    (.str "[1,0]") (.str "bad name") ["2", "3", "1"] noFlags
  refine ⟨?_, ?_, ?_, ?_, ?_⟩
  · rw [h.1.2 rfl rfl rfl]; rfl
  · rw [h.2.1.2 rfl rfl rfl]; rfl
  · rw [h.2.2.1.2 rfl rfl rfl]; rfl
  · rw [h.2.2.2.1.2 rfl rfl rfl]; rfl
  · rw [h.2.2.2.2.2 rfl rfl]; rfl

/-! ## Too few versions to compare -/

/-- Counterexample to C5: under the base name `net` a single version exists,
fewer than 2, but the command is run outside a project root; the compare
command exits with code 1, not 4, and the comparison logic is never called. -/
theorem compare_outside_project_exits_1 :
    (listVersions [⟨"net", some 1⟩] "net").length < 2
    ∧ compareAction (singleVersionProject false) (.str "net") noFlags St.init =
        .exit 1 ⟨true,
          [.call .validateProject [],
            .error "ERROR: Go to the root of the project"]⟩ := by
  decide

/-- C5 (amended): for every base name under which fewer than 2 versions are
stored, the comparison fails with `InsufficientModels` and yields no report;
when the project-root, parameter and base-name checks pass, the compare
command calls the comparison logic, prints its error message and exits with
code 4. -/
theorem compare_insufficient_models (env : Env) (store : List Identity)
    (evaluate : Identity → Except CoreError ℚ) (baseName : String) (topK : Option Nat)
    (option : CmdOptions)
    (hfew : (listVersions store baseName).length < 2)
    (h1 : verdict env .validateProject [] = .pass)
    (h2 : verdict env .validateParams [.str baseName] = .pass)
    (h3 : verdict env .validateBaseName [.str baseName] = .pass)
    (hlogic : env .compareNeuralNetworkCommand [.str baseName, option.top, option.verbose] =
      .ret (commandResult (compare store evaluate baseName topK))) :
    compare store evaluate baseName topK = .error .insufficientModels
    ∧ compareAction env (.str baseName) option St.init =
        .exit 4 ⟨true,
          [.call .validateProject [],
            .call .validateParams [.str baseName],
            .call .validateBaseName [.str baseName],
            .call .compareNeuralNetworkCommand [.str baseName, option.top, option.verbose],
            .error "ERROR: Make sure you have two or more neural networks or have the test data file in your respective folder"]⟩ := by
  have hc : compare store evaluate baseName topK = .error .insufficientModels := by
    simp [compare, hfew]
  refine ⟨hc, ?_⟩
  rw [hc] at hlogic
  have h4 : verdict env .compareNeuralNetworkCommand
      [.str baseName, option.top, option.verbose] = .fail := by
    rw [verdict_of_ret hlogic]
    rfl
  simp [compareAction, setCommand_bind, check_step, last_step, St.init, h1, h2, h3, h4]

/-- Witness for C5 (amended): inside a project whose store holds the single
version `net_1`, `compare net` exits with code 4. -/
theorem compare_insufficient_models_witness :
    (listVersions [⟨"net", some 1⟩] "net").length < 2
    ∧ compare [⟨"net", some 1⟩] (fun _ => .ok 0) "net" none = .error .insufficientModels
    ∧ (compareAction (singleVersionProject true) (.str "net") noFlags St.init).exitCode
        = some 4 := by
  have h := compare_insufficient_models (singleVersionProject true) [⟨"net", some 1⟩]
    (fun _ => .ok 0) "net" none noFlags (by decide) rfl rfl rfl rfl
  exact ⟨by decide, h.1, by rw [h.2]; rfl⟩

end NeuralDeep
